import Mathlib

/-!
# react-native-lingua: the JSI boundary of the language detection engine

Shallow embedding of `src/cpp/lingua.cpp`.  The file installs five host
functions on the JavaScript object `__LinguaProxy`; each validates its
arguments, unwraps the detector handle and forwards to the C API of the
detection engine declared in `liblingua.h`.

* A host function is a Lean function from the engine and the argument list to
  an `Outcome`: the value returned or the message of the `jsi::JSError` thrown,
  together with the engine calls made, in order.
* The engine is a record of functions (`Engine`), one per C entry point.  An
  out-parameter `const char **error` is the second component of the returned
  pair (`none` is `nullptr`).
* A `void *` detector pointer is `Option LinguaDetector` (`none` is `nullptr`).
* A `double` is carried as a rational: the boundary moves doubles, it performs
  no arithmetic on them.
-/

namespace lingua

/-! ## Engine interface (`liblingua.h`) -/

/-- The C `double`.  The boundary only forwards such values. -/
abbrev Double := Rat

/-- Modelled from the spec: the engine's detector type `LinguaDetector`, whose
declaration (`liblingua.h`) is missing.  Spec §3: a detector owns the set of
language codes it considers (its candidate set). -/
structure LinguaDetector where
  candidates : List String
deriving DecidableEq, Repr

/-- The C struct `ConfidenceValue` of `liblingua.h`, with the two fields the
boundary reads (`values[i].language_code`, `values[i].confidence`). -/
structure ConfidenceValue where
  language_code : String
  confidence : Double
deriving DecidableEq, Repr

/-- The engine entry points called by `lingua.cpp`.  A returned array
`ConfidenceValue *` with its length `count_val` is a list (`none` is the null
pointer, and `count_val` is the length of the list). -/
structure Engine where
  lingua_detector_create_all : Option LinguaDetector
  lingua_detector_create_from_languages : String → Option LinguaDetector × Option String
  lingua_detect_language : LinguaDetector → String → Option String × Option String
  lingua_compute_language_confidence : LinguaDetector → String → String → Double × Option String
  lingua_compute_language_confidence_values :
    LinguaDetector → String → Option (List ConfidenceValue) × Option String

/-- One call into the engine, with the arguments passed. -/
inductive EngineCall where
  | detector_create_all
  | detector_create_from_languages (codes : String)
  | detect_language (detector : LinguaDetector) (text : String)
  | compute_language_confidence (detector : LinguaDetector) (text code : String)
  | compute_language_confidence_values (detector : LinguaDetector) (text : String)
  | free_string (s : String)
  | free_confidence_values (count : Nat)
  | detector_destroy (detector : LinguaDetector)
deriving DecidableEq, Repr

/-! ## JSI values -/

/-- The wrapper class `LinguaDetectorWrapper`: one field, the detector pointer. -/
structure LinguaDetectorWrapper where
  detector_ptr : Option LinguaDetector
deriving DecidableEq, Repr

/-- JavaScript primitives (`jsi::Value` kinds other than object). -/
inductive Prim where
  | undefined
  | null
  | bool (b : Bool)
  | number (d : Double)
  | symbol (description : String)
  | bigint (n : Int)
  | string (s : String)
deriving DecidableEq, Repr

/-- A plain `jsi::Object`: its native state (if any) and its properties in the
order they were set.  The objects this program builds hold primitives only. -/
structure JsObject where
  nativeState : Option LinguaDetectorWrapper
  props : List (String × Prim)
deriving DecidableEq, Repr

/-- A `jsi::Value`.  Objects are plain objects or arrays of objects. -/
inductive Value where
  | prim (p : Prim)
  | object (o : JsObject)
  | array (elems : List JsObject)
deriving DecidableEq, Repr

/-- The test `jsi::Value::isObject()`: arrays are objects. -/
def Value.isObject : Value → Bool
  | .object _ => true
  | .array _ => true
  | .prim _ => false

/-- The test `jsi::Value::isString()`. -/
def Value.isString : Value → Bool
  | .prim (.string _) => true
  | _ => false

/-- The conversion `asString(rt).utf8(rt)` (applied after `isString()`). -/
def Value.utf8 : Value → String
  | .prim (.string s) => s
  | _ => ""

/-- The call `asObject(rt).getNativeState<LinguaDetectorWrapper>(rt)`; an
array, or an object without native state, gives the null wrapper.  Native
state of another class is not represented: this program attaches none, and the
library call does not check the class. -/
def Value.getNativeState : Value → Option LinguaDetectorWrapper
  | .object o => o.nativeState
  | _ => none

/-- The view `std::string::c_str()` as the engine reads it: the characters
before the first NUL. -/
def c_str (s : String) : String :=
  String.mk (s.data.takeWhile (fun c => c != Char.ofNat 0))

/-- The element `args[i]` of the argument array. -/
def arg (args : List Value) (i : Nat) : Value :=
  args.getD i (.prim .undefined)

deriving instance DecidableEq for Except

/-- What a host function call does: it returns a value or throws a
`jsi::JSError` with a message, after the listed engine calls. -/
structure Outcome where
  result : Except String Value
  calls : List EngineCall
deriving DecidableEq

/-- The object returned by the two constructors: a fresh object whose native
state is a wrapper around `detector`. -/
def detectorObj (detector : Option LinguaDetector) : Value :=
  .object { nativeState := some { detector_ptr := detector }, props := [] }

/-! ## The host functions of `install` -/

/-- Host function `createDetectorForAllLanguages` (lines 30-43). -/
def createDetectorForAllLanguages (eng : Engine) (_args : List Value) : Outcome :=
  let detector := eng.lingua_detector_create_all
  match detector with
  | none => ⟨.error "Failed to create language detector", [.detector_create_all]⟩
  | some d => ⟨.ok (detectorObj (some d)), [.detector_create_all]⟩

/-- Host function `createDetectorForLanguages` (lines 46-71). -/
def createDetectorForLanguages (eng : Engine) (args : List Value) : Outcome :=
  if args.length < 1 || !(arg args 0).isString then
    ⟨.error "Language codes string required", []⟩
  else
    let langCodes := (arg args 0).utf8
    let r := eng.lingua_detector_create_from_languages (c_str langCodes)
    let call := EngineCall.detector_create_from_languages (c_str langCodes)
    match r.1 with
    | none =>
      let errorMsg := "Failed to create detector"
      let errorMsg := match r.2 with
        | some error => errorMsg ++ (": " ++ error)
        | none => errorMsg
      ⟨.error errorMsg, [call]⟩
    | some d => ⟨.ok (detectorObj (some d)), [call]⟩

/-- Host function `detectLanguage` (lines 74-102). -/
def detectLanguage (eng : Engine) (args : List Value) : Outcome :=
  if args.length < 2 || !(arg args 0).isObject || !(arg args 1).isString then
    ⟨.error "Invalid arguments: detector object and text string required", []⟩
  else
    match (arg args 0).getNativeState with
    | none => ⟨.error "Invalid detector", []⟩
    | some wrapper =>
      match wrapper.detector_ptr with
      | none => ⟨.error "Invalid detector", []⟩
      | some d =>
        let text := (arg args 1).utf8
        let r := eng.lingua_detect_language d (c_str text)
        match r.1 with
        | none => ⟨.ok (.prim .null), [.detect_language d (c_str text)]⟩
        | some result =>
          let langCode := result
          ⟨.ok (.prim (.string langCode)),
            [.detect_language d (c_str text), .free_string result]⟩

/-- Host function `computeLanguageConfidence` (lines 105-128). -/
def computeLanguageConfidence (eng : Engine) (args : List Value) : Outcome :=
  if args.length < 3 || !(arg args 0).isObject || !(arg args 1).isString ||
      !(arg args 2).isString then
    ⟨.error "Invalid arguments: detector, text, and language code required", []⟩
  else
    match (arg args 0).getNativeState with
    | none => ⟨.error "Invalid detector", []⟩
    | some wrapper =>
      match wrapper.detector_ptr with
      | none => ⟨.error "Invalid detector", []⟩
      | some d =>
        let text := (arg args 1).utf8
        let langCode := (arg args 2).utf8
        let r := eng.lingua_compute_language_confidence d (c_str text) (c_str langCode)
        let confidence := r.1
        ⟨.ok (.prim (.number confidence)),
          [.compute_language_confidence d (c_str text) (c_str langCode)]⟩

/-- The object built in the loop body (lines 159-162). -/
def confidenceObj (v : ConfidenceValue) : JsObject :=
  { nativeState := none,
    props := [("language", .string v.language_code), ("confidence", .number v.confidence)] }

/-- The freshly made `jsi::Object obj(rt)` an array slot holds before it is set. -/
def emptyObj : JsObject := { nativeState := none, props := [] }

/-- The loop `for (int i = 0; i < count_val; i++)` (lines 158-164), with
`count_val` the length of `values`: slot `i` of `result` is set from
`values[i]`. -/
def fillResult (values : List ConfidenceValue) (i : Nat) (result : List JsObject) :
    List JsObject :=
  if h : i < values.length then
    fillResult values (i + 1) (result.set i (confidenceObj (values.get ⟨i, h⟩)))
  else result
termination_by values.length - i

/-- Host function `computeLanguageConfidenceValues` (lines 131-169). -/
def computeLanguageConfidenceValues (eng : Engine) (args : List Value) : Outcome :=
  if args.length < 2 || !(arg args 0).isObject || !(arg args 1).isString then
    ⟨.error "Invalid arguments: detector and text required", []⟩
  else
    match (arg args 0).getNativeState with
    | none => ⟨.error "Invalid detector", []⟩
    | some wrapper =>
      match wrapper.detector_ptr with
      | none => ⟨.error "Invalid detector", []⟩
      | some d =>
        let text := (arg args 1).utf8
        let r := eng.lingua_compute_language_confidence_values d (c_str text)
        let call := EngineCall.compute_language_confidence_values d (c_str text)
        match r.1 with
        | none => ⟨.ok (.array []), [call]⟩
        | some values =>
          let count_val := values.length
          if count_val = 0 then ⟨.ok (.array []), [call]⟩
          else
            let result := List.replicate count_val emptyObj
            let result := fillResult values 0 result
            ⟨.ok (.array result), [call, .free_confidence_values count_val]⟩

/-- The property names `install` sets on the module object (lines 171-179). -/
inductive HostFunction where
  | createDetectorForAllLanguages
  | createDetectorForLanguages
  | detectLanguage
  | computeLanguageConfidence
  | computeLanguageConfidenceValues
deriving DecidableEq, Repr

/-- Calling a host function. -/
def HostFunction.call : HostFunction → Engine → List Value → Outcome
  | .createDetectorForAllLanguages => lingua.createDetectorForAllLanguages
  | .createDetectorForLanguages => lingua.createDetectorForLanguages
  | .detectLanguage => lingua.detectLanguage
  | .computeLanguageConfidence => lingua.computeLanguageConfidence
  | .computeLanguageConfidenceValues => lingua.computeLanguageConfidenceValues

/-- The module object `linguaModule` that `install` stores in the global
`__LinguaProxy`: its properties, in the order they are set. -/
def install : List (String × HostFunction) :=
  [("createDetectorForAllLanguages", .createDetectorForAllLanguages),
   ("createDetectorForLanguages", .createDetectorForLanguages),
   ("detectLanguage", .detectLanguage),
   ("computeLanguageConfidence", .computeLanguageConfidence),
   ("computeLanguageConfidenceValues", .computeLanguageConfidenceValues)]

/-- The destructor `~LinguaDetectorWrapper` (lines 16-21): the engine calls
made by one run of its body on a wrapper.  The lifetime of the wrapper ends
with this run, so there is no wrapper afterwards: the store
`detector_ptr = nullptr` has no observer and is not represented. -/
def LinguaDetectorWrapper.destructor (w : LinguaDetectorWrapper) : List EngineCall :=
  match w.detector_ptr with
  | some d => [.detector_destroy d]
  | none => []

/-! ## The detection engine, from the specification

The engine's source is not part of the boundary; what the boundary's results
owe to the engine is stated against the following model of spec §3-§4. -/

/-- Modelled from the spec: the Language Model Store (§3, §4.2) together with
the Confidence Scorer's per-language likelihood (§4.4); the engine source is
missing.  `codes` lists the languages that have a model.  `likelihood code text`
is the linear-space likelihood of `text` under the model of `code`, after
script filtering (0 for a language the filter eliminates); the n-gram
weighting behind it is an implementation parameter of the spec. -/
structure LanguageModelStore where
  codes : List String
  likelihood : String → String → Rat

/-- Modelled from the spec: the pieces of a delimiter-separated code list
(§4.3, comma-separated); `cur` holds the current piece, reversed. -/
def splitCodes : List Char → List Char → List String
  | [], cur => [String.mk cur.reverse]
  | c :: cs, cur =>
    if c = ',' then String.mk cur.reverse :: splitCodes cs [] else splitCodes cs (c :: cur)

/-- Modelled from the spec: the order of a ranked list (§3): descending by
score, ties broken by language code ascending. -/
def rankedBefore (a b : ConfidenceValue) : Prop :=
  b.confidence < a.confidence ∨
    (a.confidence = b.confidence ∧ a.language_code ≤ b.language_code)

instance : DecidableRel rankedBefore := fun a b => by
  unfold rankedBefore; infer_instance

namespace LanguageModelStore

/-- Modelled from the spec: `createForAllLanguages` (§4.3): the candidate set
is every language of the store; no detector if the store is empty. -/
def createForAllLanguages (st : LanguageModelStore) : Option LinguaDetector :=
  if st.codes = [] then none else some ⟨st.codes.dedup⟩

/-- Modelled from the spec: `createForLanguages` (§4.3): parse, deduplicate,
check that each code resolves; `InvalidLanguageCode` names the first
unresolved code, `EmptyLanguageSet` reports an empty set. -/
def createForLanguages (st : LanguageModelStore) (codeList : String) :
    Option LinguaDetector × Option String :=
  let codes := (splitCodes codeList.data []).filter (fun c => c ≠ "")
  match codes.find? (fun c => decide (c ∉ st.codes)) with
  | some c => (none, some ("InvalidLanguageCode: " ++ c))
  | none =>
    if codes = [] then (none, some "EmptyLanguageSet") else (some ⟨codes.dedup⟩, none)

/-- Modelled from the spec: the normalising constant of §4.4, the sum of the
likelihoods over the candidate set. -/
def total (st : LanguageModelStore) (det : LinguaDetector) (text : String) : Rat :=
  (det.candidates.map (fun c => st.likelihood c text)).sum

/-- Modelled from the spec: the normalised score of one candidate (§4.4). -/
def score (st : LanguageModelStore) (det : LinguaDetector) (text code : String) : Rat :=
  st.likelihood code text / st.total det text

/-- Modelled from the spec: `computeConfidenceValues` (§4.3): empty text is a
caller error; a text without signal gives the empty sequence; otherwise the
distribution over the candidate set, ranked. -/
def computeConfidenceValues (st : LanguageModelStore) (det : LinguaDetector)
    (text : String) : Option (List ConfidenceValue) × Option String :=
  if text = "" then (none, some "InvalidArgument: empty text")
  else if st.total det text = 0 then (some [], none)
  else
    (some ((det.candidates.map (fun c => ⟨c, st.score det text c⟩)).insertionSort
      rankedBefore), none)

/-- Modelled from the spec: `detectLanguage` (§4.3, §8): the language with the
maximum score of `computeConfidenceValues`, none if that sequence is empty. -/
def detectLanguage (st : LanguageModelStore) (det : LinguaDetector) (text : String) :
    Option String × Option String :=
  match st.computeConfidenceValues det text with
  | (some (v :: _), error) => (some v.language_code, error)
  | (_, error) => (none, error)

/-- Modelled from the spec: `computeConfidence` (§4.3): the score of the named
language, `0.0` for a code outside the candidate set, and zero when scoring
fails. -/
def computeConfidence (st : LanguageModelStore) (det : LinguaDetector)
    (text code : String) : Double × Option String :=
  if text = "" then (0, some "InvalidArgument: empty text")
  else if code ∈ det.candidates ∧ st.total det text ≠ 0 then (st.score det text code, none)
  else (0, none)

/-- Modelled from the spec: the engine over a store, behind the C entry
points the boundary calls. -/
def engine (st : LanguageModelStore) : Engine where
  lingua_detector_create_all := st.createForAllLanguages
  lingua_detector_create_from_languages := st.createForLanguages
  lingua_detect_language := st.detectLanguage
  lingua_compute_language_confidence := st.computeConfidence
  lingua_compute_language_confidence_values := st.computeConfidenceValues

end LanguageModelStore

/-- A store without any model. -/
def emptyStore : LanguageModelStore where
  codes := []
  likelihood := fun _ _ => 0

/-- A detector over English and Russian. -/
def sampleDetector : LinguaDetector := ⟨["en", "ru"]⟩

/-- A live handle: an object whose wrapper points at `sampleDetector`. -/
def sampleHandle : Value := detectorObj (some sampleDetector)

/-- A store with models for English and Russian; the likelihood separates the
two by script: Cyrillic letters count for `ru`, other letters for `en`. -/
def sampleStore : LanguageModelStore where
  codes := ["en", "ru"]
  likelihood := fun code text =>
    let cyr := (text.data.filter (fun c => decide (1024 ≤ c.toNat ∧ c.toNat < 1280))).length
    let lat := (text.data.filter (fun c => c.isAlpha)).length
    if code = "ru" then cyr else if code = "en" then lat else 0

/-! ## Lemmas on the loop -/

theorem fillResult_aux (values : List ConfidenceValue) :
    ∀ (k i : Nat) (result : List JsObject), k = values.length - i → i ≤ values.length →
      result.length = values.length →
      (∀ j, j < i → result[j]? = (values.map confidenceObj)[j]?) →
      fillResult values i result = values.map confidenceObj := by
  intro k
  induction k with
  | zero =>
    intro i result hk hi hlen hpre
    have hie : i = values.length := by omega
    rw [fillResult, dif_neg (by omega)]
    apply List.ext_getElem?
    intro j
    by_cases hj : j < i
    · exact hpre j hj
    · rw [List.getElem?_eq_none (by omega), List.getElem?_eq_none (by simp; omega)]
  | succ k ih =>
    intro i result hk hi hlen hpre
    have hlt : i < values.length := by omega
    rw [fillResult, dif_pos hlt]
    apply ih (i + 1) _ (by omega) (by omega) (by simpa using hlen)
    intro j hj
    by_cases hji : j = i
    · subst hji
      simp [List.getElem?_set, hlen, hlt]
    · have hj2 : j < i := by omega
      rw [List.getElem?_set_ne (by omega)]
      exact hpre j hj2

/-- The loop copies the engine's array: entry `i` of the result is built from
`values[i]`. -/
theorem fillResult_eq_map (values : List ConfidenceValue) :
    fillResult values 0 (List.replicate values.length emptyObj) =
      values.map confidenceObj :=
  fillResult_aux values (values.length - 0) 0 _ rfl (Nat.zero_le _) (by simp)
    (fun j hj => absurd hj (Nat.not_lt_zero j))

/-! ## The host functions on well-typed arguments and a live handle -/

theorem isObject_of_getNativeState {handle : Value} {w : LinguaDetectorWrapper}
    (h : handle.getNativeState = some w) : handle.isObject = true := by
  cases handle with
  | prim p => simp [Value.getNativeState] at h
  | object o => rfl
  | array l => rfl

theorem detectLanguage_live (eng : Engine) (handle : Value) (d : LinguaDetector)
    (text : String) (rest : List Value)
    (hh : handle.getNativeState = some ⟨some d⟩) :
    detectLanguage eng (handle :: .prim (.string text) :: rest) =
      match (eng.lingua_detect_language d (c_str text)).1 with
      | none => ⟨.ok (.prim .null), [.detect_language d (c_str text)]⟩
      | some code =>
        ⟨.ok (.prim (.string code)), [.detect_language d (c_str text), .free_string code]⟩ := by
  simp [detectLanguage, arg, isObject_of_getNativeState hh, Value.isString, hh, Value.utf8]

theorem computeLanguageConfidence_live (eng : Engine) (handle : Value) (d : LinguaDetector)
    (text code : String) (rest : List Value)
    (hh : handle.getNativeState = some ⟨some d⟩) :
    computeLanguageConfidence eng
        (handle :: .prim (.string text) :: .prim (.string code) :: rest) =
      ⟨.ok (.prim (.number
          (eng.lingua_compute_language_confidence d (c_str text) (c_str code)).1)),
        [.compute_language_confidence d (c_str text) (c_str code)]⟩ := by
  simp [computeLanguageConfidence, arg, isObject_of_getNativeState hh, Value.isString, hh,
    Value.utf8]

theorem computeLanguageConfidenceValues_live (eng : Engine) (handle : Value)
    (d : LinguaDetector) (text : String) (rest : List Value)
    (hh : handle.getNativeState = some ⟨some d⟩) :
    computeLanguageConfidenceValues eng (handle :: .prim (.string text) :: rest) =
      match (eng.lingua_compute_language_confidence_values d (c_str text)).1 with
      | none => ⟨.ok (.array []), [.compute_language_confidence_values d (c_str text)]⟩
      | some values =>
        if values.length = 0 then
          ⟨.ok (.array []), [.compute_language_confidence_values d (c_str text)]⟩
        else
          ⟨.ok (.array (values.map confidenceObj)),
            [.compute_language_confidence_values d (c_str text),
              .free_confidence_values values.length]⟩ := by
  simp only [computeLanguageConfidenceValues, arg, List.getD_cons_zero, List.getD_cons_succ,
    isObject_of_getNativeState hh, Value.isString, hh, Value.utf8, fillResult_eq_map]
  simp

/-! ## Claims on `detectLanguage` -/

/-- C1: on a live detector handle and a string text, `detectLanguage` returns
null exactly when the engine returned no language code, and otherwise returns
the very string the engine returned. -/
theorem detectLanguage_returns_engine_code (eng : Engine) (handle : Value)
    (d : LinguaDetector) (text : String) (rest : List Value)
    (hh : handle.getNativeState = some ⟨some d⟩) :
    ((detectLanguage eng (handle :: .prim (.string text) :: rest)).result = .ok (.prim .null) ↔
        (eng.lingua_detect_language d (c_str text)).1 = none) ∧
      ∀ code, (eng.lingua_detect_language d (c_str text)).1 = some code →
        (detectLanguage eng (handle :: .prim (.string text) :: rest)).result =
          .ok (.prim (.string code)) := by
  rw [detectLanguage_live eng handle d text rest hh]
  cases hr : (eng.lingua_detect_language d (c_str text)).1 with
  | none => simp
  | some code => simp

/-- Witness for C1: the engine over the sample store finds English in "hi",
and the boundary returns that code. -/
theorem detectLanguage_returns_engine_code_witness :
    sampleHandle.getNativeState = some ⟨some sampleDetector⟩ ∧
      (sampleStore.engine.lingua_detect_language sampleDetector (c_str "hi")).1 = some "en" ∧
      (detectLanguage sampleStore.engine [sampleHandle, .prim (.string "hi")]).result =
        .ok (.prim (.string "en")) :=
  ⟨rfl, by decide!,
    (detectLanguage_returns_engine_code sampleStore.engine sampleHandle sampleDetector "hi" []
      rfl).2 "en" (by decide!)⟩

/-- C2, as stated, fails: for the empty text the engine returns null with its
error out-parameter set, and both operations return normally (null, the empty
list) instead of raising. -/
theorem engine_error_not_raised :
    sampleStore.engine.lingua_detect_language sampleDetector (c_str "") =
        (none, some "InvalidArgument: empty text") ∧
      (detectLanguage sampleStore.engine [sampleHandle, .prim (.string "")]).result =
        .ok (.prim .null) ∧
      sampleStore.engine.lingua_compute_language_confidence_values sampleDetector (c_str "") =
        (none, some "InvalidArgument: empty text") ∧
      (computeLanguageConfidenceValues sampleStore.engine
        [sampleHandle, .prim (.string "")]).result = .ok (.array []) := by
  refine ⟨by decide, by decide, by decide, by decide⟩

/-- C2, amended: on a live handle and a string text, a null result of the
engine is returned as null by `detectLanguage` and as the empty list by
`computeLanguageConfidenceValues`, whatever the engine left in its error
out-parameter; the error is not consulted and nothing is raised. -/
theorem engine_null_result_returned (eng : Engine) (handle : Value) (d : LinguaDetector)
    (text : String) (rest : List Value) (error : Option String)
    (hh : handle.getNativeState = some ⟨some d⟩) :
    (eng.lingua_detect_language d (c_str text) = (none, error) →
        detectLanguage eng (handle :: .prim (.string text) :: rest) =
          ⟨.ok (.prim .null), [.detect_language d (c_str text)]⟩) ∧
      (eng.lingua_compute_language_confidence_values d (c_str text) = (none, error) →
        computeLanguageConfidenceValues eng (handle :: .prim (.string text) :: rest) =
          ⟨.ok (.array []), [.compute_language_confidence_values d (c_str text)]⟩) := by
  constructor
  · intro h
    rw [detectLanguage_live eng handle d text rest hh, h]
  · intro h
    rw [computeLanguageConfidenceValues_live eng handle d text rest hh, h]

/-- Witness for the amended C2: the empty text on the sample engine. -/
theorem engine_null_result_returned_witness :
    sampleHandle.getNativeState = some ⟨some sampleDetector⟩ ∧
      detectLanguage sampleStore.engine [sampleHandle, .prim (.string "")] =
        ⟨.ok (.prim .null), [.detect_language sampleDetector ""]⟩ ∧
      computeLanguageConfidenceValues sampleStore.engine [sampleHandle, .prim (.string "")] =
        ⟨.ok (.array []), [.compute_language_confidence_values sampleDetector ""]⟩ :=
  ⟨rfl,
    (engine_null_result_returned sampleStore.engine sampleHandle sampleDetector "" []
      (some "InvalidArgument: empty text") rfl).1 (by decide),
    (engine_null_result_returned sampleStore.engine sampleHandle sampleDetector "" []
      (some "InvalidArgument: empty text") rfl).2 (by decide)⟩

/-! ## Claims on the two constructors -/

/-- C3, as stated, fails: for the unregistered code "xx" the engine reports
`InvalidLanguageCode: xx`, and the message thrown at the caller is a different
string, which begins with `Failed to create detector`. -/
theorem createDetectorForLanguages_message_counterexample :
    sampleStore.engine.lingua_detector_create_from_languages (c_str "xx") =
        (none, some "InvalidLanguageCode: xx") ∧
      (createDetectorForLanguages sampleStore.engine [.prim (.string "xx")]).result =
        .error "Failed to create detector: InvalidLanguageCode: xx" ∧
      (createDetectorForLanguages sampleStore.engine [.prim (.string "xx")]).result ≠
        .error "InvalidLanguageCode: xx" := by
  refine ⟨by decide, by decide, by decide⟩

/-- C3, amended: when the engine builds no detector for the code list,
`createDetectorForLanguages` throws and returns no handle; the message is
`Failed to create detector`, followed by `: ` and the engine's error text when
the engine supplied one. -/
theorem createDetectorForLanguages_failure (eng : Engine) (codes : String)
    (rest : List Value) (error : Option String)
    (h : eng.lingua_detector_create_from_languages (c_str codes) = (none, error)) :
    createDetectorForLanguages eng (.prim (.string codes) :: rest) =
      ⟨.error (match error with
          | some msg => "Failed to create detector" ++ ": " ++ msg
          | none => "Failed to create detector"),
        [.detector_create_from_languages (c_str codes)]⟩ := by
  simp only [createDetectorForLanguages, arg, List.getD_cons_zero, Value.isString, Value.utf8, h]
  cases error with
  | none => rfl
  | some msg => simp only [String.append_assoc]; rfl

/-- Witness for the amended C3: the code list "xx" on the sample engine. -/
theorem createDetectorForLanguages_failure_witness :
    sampleStore.engine.lingua_detector_create_from_languages (c_str "xx") =
        (none, some "InvalidLanguageCode: xx") ∧
      createDetectorForLanguages sampleStore.engine [.prim (.string "xx")] =
        ⟨.error ("Failed to create detector" ++ ": " ++ "InvalidLanguageCode: xx"),
          [.detector_create_from_languages (c_str "xx")]⟩ :=
  ⟨by decide,
    createDetectorForLanguages_failure sampleStore.engine "xx" []
      (some "InvalidLanguageCode: xx") (by decide)⟩

/-- C4, as stated, fails: when the engine returns no detector (a store without
models), the error thrown is `Failed to create language detector`, not
`NoModelsAvailable`. -/
theorem createDetectorForAllLanguages_message_counterexample :
    emptyStore.engine.lingua_detector_create_all = none ∧
      (createDetectorForAllLanguages emptyStore.engine []).result =
        .error "Failed to create language detector" ∧
      (createDetectorForAllLanguages emptyStore.engine []).result ≠
        .error "NoModelsAvailable" := by
  refine ⟨by decide, by decide, by decide⟩

/-- C4, amended: `createDetectorForAllLanguages` returns a handle wrapping the
engine's detector when the engine creates one, and otherwise throws
`Failed to create language detector`; it calls the engine once and never
returns a handle whose detector pointer is null. -/
theorem createDetectorForAllLanguages_outcome (eng : Engine) (args : List Value) :
    createDetectorForAllLanguages eng args =
        ⟨(match eng.lingua_detector_create_all with
          | some d => .ok (detectorObj (some d))
          | none => .error "Failed to create language detector"),
          [.detector_create_all]⟩ ∧
      ∀ v, (createDetectorForAllLanguages eng args).result = .ok v →
        ∃ d, v.getNativeState = some ⟨some d⟩ ∧ eng.lingua_detector_create_all = some d := by
  unfold createDetectorForAllLanguages
  cases h : eng.lingua_detector_create_all with
  | none => simp
  | some d =>
    refine ⟨rfl, ?_⟩
    intro v hv
    simp only [Except.ok.injEq] at hv
    subst hv
    exact ⟨d, rfl, rfl⟩

/-- Witness for the amended C4: the sample engine creates a detector over its
two languages, and the handle wraps it. -/
theorem createDetectorForAllLanguages_outcome_witness :
    (createDetectorForAllLanguages sampleStore.engine []).result =
        .ok (detectorObj (some sampleDetector)) ∧
      ∃ d, (detectorObj (some sampleDetector)).getNativeState = some ⟨some d⟩ ∧
        sampleStore.engine.lingua_detector_create_all = some d :=
  ⟨by decide,
    (createDetectorForAllLanguages_outcome sampleStore.engine []).2
      (detectorObj (some sampleDetector)) (by decide)⟩

/-! ## Argument checks -/

theorem failed_message_ne (e : String) :
    "Failed to create detector" ++ (": " ++ e) ≠ "Language codes string required" := by
  intro h
  have h2 := congrArg (fun s => s.data.head?) h
  simp [String.data_append] at h2

theorem arg_append (args extra : List Value) (i : Nat) (h : i < args.length) :
    arg (args ++ extra) i = arg args i := by
  simp [arg, List.getD_eq_getElem?_getD, List.getElem?_append_left h]

theorem createDetectorForLanguages_check_iff (eng : Engine) (args : List Value) :
    (createDetectorForLanguages eng args).result = .error "Language codes string required" ↔
      (args.length < 1 ∨ (arg args 0).isString = false) := by
  have hcond : ((decide (args.length < 1) || !(arg args 0).isString) = true) ↔
      (args.length < 1 ∨ (arg args 0).isString = false) := by
    simp [or_assoc]
  rw [← hcond]
  unfold createDetectorForLanguages
  cases hb : (decide (args.length < 1) || !(arg args 0).isString)
  · simp only [Bool.false_eq_true, if_false, iff_false]
    cases eng.lingua_detector_create_from_languages (c_str (arg args 0).utf8) with
    | mk a b =>
      cases a with
      | some d => simp
      | none =>
        cases b with
        | none => simp only [Except.error.injEq]; decide
        | some e => simp only [Except.error.injEq]; exact failed_message_ne e
  · simp

theorem createDetectorForLanguages_check_calls (eng : Engine) (args : List Value)
    (h : (createDetectorForLanguages eng args).result = .error "Language codes string required") :
    (createDetectorForLanguages eng args).calls = [] := by
  have hcond : ((decide (args.length < 1) || !(arg args 0).isString) = true) := by
    have h2 := (createDetectorForLanguages_check_iff eng args).1 h
    simpa [or_assoc] using h2
  unfold createDetectorForLanguages
  rw [if_pos hcond]

theorem createDetectorForLanguages_extra (eng : Engine) (args extra : List Value)
    (h : 1 ≤ args.length) : createDetectorForLanguages eng (args ++ extra) = createDetectorForLanguages eng args := by
  unfold createDetectorForLanguages
  rw [arg_append args extra 0 (by omega)]
  have h1 : ¬ (args ++ extra).length < 1 := by rw [List.length_append]; omega
  have h2 : ¬ args.length < 1 := by omega
  simp only [h1, h2]

theorem detectLanguage_check_iff (eng : Engine) (args : List Value) :
    (detectLanguage eng args).result = .error "Invalid arguments: detector object and text string required" ↔
      (args.length < 2 ∨ (arg args 0).isObject = false ∨ (arg args 1).isString = false) := by
  have hcond : ((decide (args.length < 2) || !(arg args 0).isObject || !(arg args 1).isString) = true) ↔
      (args.length < 2 ∨ (arg args 0).isObject = false ∨ (arg args 1).isString = false) := by
    simp [or_assoc]
  rw [← hcond]
  unfold detectLanguage
  cases hb : (decide (args.length < 2) || !(arg args 0).isObject || !(arg args 1).isString)
  · simp only [Bool.false_eq_true, if_false, iff_false]
    split
    · simp only [Except.error.injEq]; decide
    · split
      · simp only [Except.error.injEq]; decide
      · split <;> simp
  · simp

theorem detectLanguage_check_calls (eng : Engine) (args : List Value)
    (h : (detectLanguage eng args).result = .error "Invalid arguments: detector object and text string required") :
    (detectLanguage eng args).calls = [] := by
  have hcond : ((decide (args.length < 2) || !(arg args 0).isObject || !(arg args 1).isString) = true) := by
    have h2 := (detectLanguage_check_iff eng args).1 h
    simpa [or_assoc] using h2
  unfold detectLanguage
  rw [if_pos hcond]

theorem detectLanguage_extra (eng : Engine) (args extra : List Value)
    (h : 2 ≤ args.length) : detectLanguage eng (args ++ extra) = detectLanguage eng args := by
  unfold detectLanguage
  rw [arg_append args extra 0 (by omega), arg_append args extra 1 (by omega)]
  have h1 : ¬ (args ++ extra).length < 2 := by rw [List.length_append]; omega
  have h2 : ¬ args.length < 2 := by omega
  simp only [h1, h2]

theorem computeLanguageConfidence_check_iff (eng : Engine) (args : List Value) :
    (computeLanguageConfidence eng args).result = .error "Invalid arguments: detector, text, and language code required" ↔
      (args.length < 3 ∨ (arg args 0).isObject = false ∨ (arg args 1).isString = false ∨ (arg args 2).isString = false) := by
  have hcond : ((decide (args.length < 3) || !(arg args 0).isObject || !(arg args 1).isString || !(arg args 2).isString) = true) ↔
      (args.length < 3 ∨ (arg args 0).isObject = false ∨ (arg args 1).isString = false ∨ (arg args 2).isString = false) := by
    simp [or_assoc]
  rw [← hcond]
  unfold computeLanguageConfidence
  cases hb : (decide (args.length < 3) || !(arg args 0).isObject || !(arg args 1).isString || !(arg args 2).isString)
  · simp only [Bool.false_eq_true, if_false, iff_false]
    split
    · simp only [Except.error.injEq]; decide
    · split
      · simp only [Except.error.injEq]; decide
      · simp
  · simp

theorem computeLanguageConfidence_check_calls (eng : Engine) (args : List Value)
    (h : (computeLanguageConfidence eng args).result = .error "Invalid arguments: detector, text, and language code required") :
    (computeLanguageConfidence eng args).calls = [] := by
  have hcond : ((decide (args.length < 3) || !(arg args 0).isObject || !(arg args 1).isString || !(arg args 2).isString) = true) := by
    have h2 := (computeLanguageConfidence_check_iff eng args).1 h
    simpa [or_assoc] using h2
  unfold computeLanguageConfidence
  rw [if_pos hcond]

theorem computeLanguageConfidence_extra (eng : Engine) (args extra : List Value)
    (h : 3 ≤ args.length) : computeLanguageConfidence eng (args ++ extra) = computeLanguageConfidence eng args := by
  unfold computeLanguageConfidence
  rw [arg_append args extra 0 (by omega), arg_append args extra 1 (by omega), arg_append args extra 2 (by omega)]
  have h1 : ¬ (args ++ extra).length < 3 := by rw [List.length_append]; omega
  have h2 : ¬ args.length < 3 := by omega
  simp only [h1, h2]

theorem computeLanguageConfidenceValues_check_iff (eng : Engine) (args : List Value) :
    (computeLanguageConfidenceValues eng args).result = .error "Invalid arguments: detector and text required" ↔
      (args.length < 2 ∨ (arg args 0).isObject = false ∨ (arg args 1).isString = false) := by
  have hcond : ((decide (args.length < 2) || !(arg args 0).isObject || !(arg args 1).isString) = true) ↔
      (args.length < 2 ∨ (arg args 0).isObject = false ∨ (arg args 1).isString = false) := by
    simp [or_assoc]
  rw [← hcond]
  unfold computeLanguageConfidenceValues
  cases hb : (decide (args.length < 2) || !(arg args 0).isObject || !(arg args 1).isString)
  · simp only [Bool.false_eq_true, if_false, iff_false]
    split
    · simp only [Except.error.injEq]; decide
    · split
      · simp only [Except.error.injEq]; decide
      · split
        · simp
        · split <;> simp
  · simp

theorem computeLanguageConfidenceValues_check_calls (eng : Engine) (args : List Value)
    (h : (computeLanguageConfidenceValues eng args).result = .error "Invalid arguments: detector and text required") :
    (computeLanguageConfidenceValues eng args).calls = [] := by
  have hcond : ((decide (args.length < 2) || !(arg args 0).isObject || !(arg args 1).isString) = true) := by
    have h2 := (computeLanguageConfidenceValues_check_iff eng args).1 h
    simpa [or_assoc] using h2
  unfold computeLanguageConfidenceValues
  rw [if_pos hcond]

theorem computeLanguageConfidenceValues_extra (eng : Engine) (args extra : List Value)
    (h : 2 ≤ args.length) : computeLanguageConfidenceValues eng (args ++ extra) = computeLanguageConfidenceValues eng args := by
  unfold computeLanguageConfidenceValues
  rw [arg_append args extra 0 (by omega), arg_append args extra 1 (by omega)]
  have h1 : ¬ (args ++ extra).length < 2 := by rw [List.length_append]; omega
  have h2 : ¬ args.length < 2 := by omega
  simp only [h1, h2]

/-- C5: each host function that takes arguments throws its argument error
exactly when fewer arguments than required are supplied or a required argument
has the wrong type (handle not an object, text, code or code list not a
string); when it does, no engine call has been made; and arguments after the
required ones change nothing. -/
theorem argument_error_iff_missing_or_wrong_type (eng : Engine) (args extra : List Value) :
    (((createDetectorForLanguages eng args).result = .error "Language codes string required" ↔
        (args.length < 1 ∨ (arg args 0).isString = false)) ∧
      ((createDetectorForLanguages eng args).result = .error "Language codes string required" →
        (createDetectorForLanguages eng args).calls = []) ∧
      (1 ≤ args.length →
        createDetectorForLanguages eng (args ++ extra) = createDetectorForLanguages eng args)) ∧
    (((detectLanguage eng args).result = .error "Invalid arguments: detector object and text string required" ↔
        (args.length < 2 ∨ (arg args 0).isObject = false ∨ (arg args 1).isString = false)) ∧
      ((detectLanguage eng args).result = .error "Invalid arguments: detector object and text string required" →
        (detectLanguage eng args).calls = []) ∧
      (2 ≤ args.length →
        detectLanguage eng (args ++ extra) = detectLanguage eng args)) ∧
    (((computeLanguageConfidence eng args).result = .error "Invalid arguments: detector, text, and language code required" ↔
        (args.length < 3 ∨ (arg args 0).isObject = false ∨ (arg args 1).isString = false ∨ (arg args 2).isString = false)) ∧
      ((computeLanguageConfidence eng args).result = .error "Invalid arguments: detector, text, and language code required" →
        (computeLanguageConfidence eng args).calls = []) ∧
      (3 ≤ args.length →
        computeLanguageConfidence eng (args ++ extra) = computeLanguageConfidence eng args)) ∧
    (((computeLanguageConfidenceValues eng args).result = .error "Invalid arguments: detector and text required" ↔
        (args.length < 2 ∨ (arg args 0).isObject = false ∨ (arg args 1).isString = false)) ∧
      ((computeLanguageConfidenceValues eng args).result = .error "Invalid arguments: detector and text required" →
        (computeLanguageConfidenceValues eng args).calls = []) ∧
      (2 ≤ args.length →
        computeLanguageConfidenceValues eng (args ++ extra) = computeLanguageConfidenceValues eng args)) :=
  ⟨⟨createDetectorForLanguages_check_iff eng args, createDetectorForLanguages_check_calls eng args,
      createDetectorForLanguages_extra eng args extra⟩,
    ⟨detectLanguage_check_iff eng args, detectLanguage_check_calls eng args,
      detectLanguage_extra eng args extra⟩,
    ⟨computeLanguageConfidence_check_iff eng args, computeLanguageConfidence_check_calls eng args,
      computeLanguageConfidence_extra eng args extra⟩,
    ⟨computeLanguageConfidenceValues_check_iff eng args, computeLanguageConfidenceValues_check_calls eng args,
      computeLanguageConfidenceValues_extra eng args extra⟩⟩

/-- Witness for C5: a number in the handle position is rejected without an
engine call. -/
theorem argument_error_iff_missing_or_wrong_type_witness :
    (detectLanguage sampleStore.engine [.prim (.number 1), .prim (.string "hi")]).result =
        .error "Invalid arguments: detector object and text string required" ∧
      (detectLanguage sampleStore.engine [.prim (.number 1), .prim (.string "hi")]).calls = [] :=
  ⟨by decide,
    (argument_error_iff_missing_or_wrong_type sampleStore.engine
      [.prim (.number 1), .prim (.string "hi")] []).2.1.2.1 (by decide)⟩

/-! ## Handles -/

/-- C7, as stated, fails: the module object has no property `destroyDetector`. -/
theorem install_has_no_destroyDetector :
    install.lookup "destroyDetector" = none ∧
      "destroyDetector" ∉ install.map Prod.fst := by
  refine ⟨by decide, by decide⟩

/-- C7, amended: `install` exposes exactly the five operations
`createDetectorForAllLanguages`, `createDetectorForLanguages`, `detectLanguage`,
`computeLanguageConfidence` and `computeLanguageConfidenceValues`, and no
`destroyDetector`.  A detector is released by the destructor of its wrapper:
one run of the destructor calls the engine's destroy exactly once, on the
wrapped detector, when the detector pointer is non-null, and makes no engine
call when the pointer is null. -/
theorem destructor_destroys_once (w : LinguaDetectorWrapper) :
    install.map Prod.fst =
        ["createDetectorForAllLanguages", "createDetectorForLanguages", "detectLanguage",
          "computeLanguageConfidence", "computeLanguageConfidenceValues"] ∧
      w.destructor =
        (match w.detector_ptr with
          | some d => [.detector_destroy d]
          | none => []) ∧
      w.destructor.length = (if w.detector_ptr = none then 0 else 1) := by
  refine ⟨rfl, rfl, ?_⟩
  cases w with
  | mk p =>
    cases p with
    | none => rfl
    | some d => rfl

/-! ## Confidence of one language -/

theorem total_nonneg (st : LanguageModelStore) (hst : ∀ c t, 0 ≤ st.likelihood c t)
    (det : LinguaDetector) (text : String) : 0 ≤ st.total det text := by
  unfold LanguageModelStore.total
  apply List.sum_nonneg
  intro x hx
  obtain ⟨c, _, rfl⟩ := List.mem_map.1 hx
  exact hst c text

theorem likelihood_le_total (st : LanguageModelStore) (hst : ∀ c t, 0 ≤ st.likelihood c t)
    (det : LinguaDetector) (text code : String) (hc : code ∈ det.candidates) :
    st.likelihood code text ≤ st.total det text := by
  unfold LanguageModelStore.total
  apply List.single_le_sum
  · intro x hx
    obtain ⟨c, _, rfl⟩ := List.mem_map.1 hx
    exact hst c text
  · exact List.mem_map.2 ⟨code, hc, rfl⟩

theorem score_mem_unit (st : LanguageModelStore) (hst : ∀ c t, 0 ≤ st.likelihood c t)
    (det : LinguaDetector) (text code : String) (hc : code ∈ det.candidates) :
    0 ≤ st.score det text code ∧ st.score det text code ≤ 1 := by
  unfold LanguageModelStore.score
  have h0 := total_nonneg st hst det text
  have h1 := likelihood_le_total st hst det text code hc
  exact ⟨div_nonneg (hst code text) h0, div_le_one_of_le₀ h1 h0⟩

theorem computeConfidence_mem_unit (st : LanguageModelStore)
    (hst : ∀ c t, 0 ≤ st.likelihood c t) (det : LinguaDetector) (text code : String) :
    0 ≤ (st.computeConfidence det text code).1 ∧ (st.computeConfidence det text code).1 ≤ 1 := by
  unfold LanguageModelStore.computeConfidence
  split_ifs with h1 h2
  · exact ⟨le_refl _, zero_le_one⟩
  · exact score_mem_unit st hst det text code h2.1
  · exact ⟨le_refl _, zero_le_one⟩

theorem sampleStore_nonneg : ∀ c t, 0 ≤ sampleStore.likelihood c t := by
  intro c t
  simp only [sampleStore]
  split_ifs <;> simp

/-- C8: on a live detector handle, a text and a language code,
`computeLanguageConfidence` returns a number, the engine's confidence, and that
number lies in [0,1]; this includes the calls for which the engine sets its
error out-parameter, which the boundary does not consult. -/
theorem computeLanguageConfidence_in_unit_interval (st : LanguageModelStore)
    (hst : ∀ c t, 0 ≤ st.likelihood c t) (handle : Value) (d : LinguaDetector)
    (text code : String) (rest : List Value)
    (hh : handle.getNativeState = some ⟨some d⟩) :
    ∃ x : Double,
      (computeLanguageConfidence st.engine
          (handle :: .prim (.string text) :: .prim (.string code) :: rest)).result =
        .ok (.prim (.number x)) ∧
      x = (st.engine.lingua_compute_language_confidence d (c_str text) (c_str code)).1 ∧
      0 ≤ x ∧ x ≤ 1 := by
  refine ⟨_, ?_, rfl, computeConfidence_mem_unit st hst d (c_str text) (c_str code)⟩
  rw [computeLanguageConfidence_live st.engine handle d text code rest hh]

/-- Witness for C8: the empty text, for which the engine sets its error
out-parameter. -/
theorem computeLanguageConfidence_in_unit_interval_witness :
    (∀ c t, 0 ≤ sampleStore.likelihood c t) ∧
      sampleHandle.getNativeState = some ⟨some sampleDetector⟩ ∧
      (sampleStore.engine.lingua_compute_language_confidence sampleDetector (c_str "")
          (c_str "ru")).2 = some "InvalidArgument: empty text" ∧
      ∃ x : Double,
        (computeLanguageConfidence sampleStore.engine
            [sampleHandle, .prim (.string ""), .prim (.string "ru")]).result =
          .ok (.prim (.number x)) ∧
        x = (sampleStore.engine.lingua_compute_language_confidence sampleDetector (c_str "")
          (c_str "ru")).1 ∧
        0 ≤ x ∧ x ≤ 1 :=
  ⟨sampleStore_nonneg, rfl, by decide,
    computeLanguageConfidence_in_unit_interval sampleStore sampleStore_nonneg sampleHandle
      sampleDetector "" "ru" [] rfl⟩

/-! ## The list of confidence values -/

/-- C10: on a live handle and a string text, when the engine returns `n > 0`
confidence values the result is a list of exactly `n` objects, the `i`-th
holding the language and the confidence of the engine's `i`-th value; when the
engine returns no array, or an array of length 0, the result is the empty
list. -/
theorem computeLanguageConfidenceValues_copies_engine (eng : Engine) (handle : Value)
    (d : LinguaDetector) (text : String) (rest : List Value) (error : Option String)
    (hh : handle.getNativeState = some ⟨some d⟩) :
    (∀ values, eng.lingua_compute_language_confidence_values d (c_str text) =
          (some values, error) → 0 < values.length →
        ∃ objs, (computeLanguageConfidenceValues eng
              (handle :: .prim (.string text) :: rest)).result = .ok (.array objs) ∧
          objs.length = values.length ∧
          ∀ i (hi : i < values.length), objs[i]? = some
            { nativeState := none,
              props := [("language", .string (values.get ⟨i, hi⟩).language_code),
                ("confidence", .number (values.get ⟨i, hi⟩).confidence)] }) ∧
      ((eng.lingua_compute_language_confidence_values d (c_str text) = (none, error) ∨
          eng.lingua_compute_language_confidence_values d (c_str text) = (some [], error)) →
        (computeLanguageConfidenceValues eng
          (handle :: .prim (.string text) :: rest)).result = .ok (.array [])) := by
  rw [computeLanguageConfidenceValues_live eng handle d text rest hh]
  constructor
  · intro values hv hpos
    rw [hv]
    refine ⟨values.map confidenceObj, ?_, by simp, ?_⟩
    · simp only [Nat.ne_of_gt hpos, if_false]
    · intro i hi
      simp [confidenceObj, hi]
  · intro hv
    rcases hv with hv | hv
    · rw [hv]
    · rw [hv]; rfl

/-- Witness for C10: two values from the sample engine, copied in order. -/
theorem computeLanguageConfidenceValues_copies_engine_witness :
    sampleHandle.getNativeState = some ⟨some sampleDetector⟩ ∧
      sampleStore.engine.lingua_compute_language_confidence_values sampleDetector
          (c_str "hi привет") = (some [⟨"ru", 3 / 4⟩, ⟨"en", 1 / 4⟩], none) ∧
      ∃ objs, (computeLanguageConfidenceValues sampleStore.engine
            [sampleHandle, .prim (.string "hi привет")]).result = .ok (.array objs) ∧
        objs.length = 2 ∧
        objs[0]? = some ⟨none, [("language", .string "ru"), ("confidence", .number (3 / 4))]⟩ ∧
        objs[1]? = some ⟨none, [("language", .string "en"), ("confidence", .number (1 / 4))]⟩ := by
  have hv : sampleStore.engine.lingua_compute_language_confidence_values sampleDetector
      (c_str "hi привет") = (some [⟨"ru", 3 / 4⟩, ⟨"en", 1 / 4⟩], none) := by decide!
  obtain ⟨objs, h1, h2, h3⟩ :=
    (computeLanguageConfidenceValues_copies_engine sampleStore.engine sampleHandle
      sampleDetector "hi привет" [] none rfl).1 _ hv (by decide)
  exact ⟨rfl, hv, objs, h1, h2, h3 0 (by decide), h3 1 (by decide)⟩

theorem rankedBefore_total (a b : ConfidenceValue) : rankedBefore a b ∨ rankedBefore b a := by
  unfold rankedBefore
  rcases lt_trichotomy a.confidence b.confidence with h | h | h
  · exact Or.inr (Or.inl h)
  · rcases le_total a.language_code b.language_code with hc | hc
    · exact Or.inl (Or.inr ⟨h, hc⟩)
    · exact Or.inr (Or.inr ⟨h.symm, hc⟩)
  · exact Or.inl (Or.inl h)

theorem rankedBefore_trans (a b c : ConfidenceValue) (hab : rankedBefore a b)
    (hbc : rankedBefore b c) : rankedBefore a c := by
  unfold rankedBefore at *
  rcases hab with hab | ⟨hab, hab2⟩
  · rcases hbc with hbc | ⟨hbc, _⟩
    · exact Or.inl (lt_trans hbc hab)
    · exact Or.inl (hbc ▸ hab)
  · rcases hbc with hbc | ⟨hbc, hbc2⟩
    · exact Or.inl (hab ▸ hbc)
    · exact Or.inr ⟨hab.trans hbc, le_trans hab2 hbc2⟩

theorem computeConfidenceValues_ranked (st : LanguageModelStore) (det : LinguaDetector)
    (text : String) :
    ((st.computeConfidenceValues det text).1.getD []).Sorted rankedBefore := by
  unfold LanguageModelStore.computeConfidenceValues
  split_ifs
  · exact List.sorted_nil
  · exact List.sorted_nil
  · exact @List.sorted_insertionSort _ rankedBefore _ ⟨rankedBefore_total⟩
      ⟨rankedBefore_trans⟩ _

theorem computeConfidenceValues_codes (st : LanguageModelStore) (det : LinguaDetector)
    (text : String) (h1 : text ≠ "") (h2 : st.total det text ≠ 0) :
    (((st.computeConfidenceValues det text).1.getD []).map
      (fun v => v.language_code)).Perm det.candidates := by
  unfold LanguageModelStore.computeConfidenceValues
  rw [if_neg h1, if_neg h2]
  simp only [Option.getD_some]
  have hp := (List.perm_insertionSort rankedBefore
    (det.candidates.map (fun c => (⟨c, st.score det text c⟩ : ConfidenceValue)))).map
      (fun v => v.language_code)
  refine hp.trans ?_
  rw [List.map_map]
  have : ((fun v : ConfidenceValue => v.language_code) ∘
      fun c => (⟨c, st.score det text c⟩ : ConfidenceValue)) = id := rfl
  rw [this, List.map_id]

theorem computeConfidenceValues_none (st : LanguageModelStore) (det : LinguaDetector)
    (text : String) (h : text = "" ∨ st.total det text = 0) :
    (st.computeConfidenceValues det text).1.getD [] = [] := by
  unfold LanguageModelStore.computeConfidenceValues
  split_ifs with h1 h2
  · rfl
  · rfl
  · rcases h with h | h
    · exact absurd h h1
    · exact absurd h h2

/-- C9, as stated, fails: for a text without signal, and for the empty text,
the engine returns no values and the list returned is empty, while the
candidate set of the detector holds `en` and `ru`. -/
theorem computeLanguageConfidenceValues_empty_counterexample :
    sampleDetector.candidates = ["en", "ru"] ∧
      sampleStore.engine.lingua_compute_language_confidence_values sampleDetector
          (c_str "12") = (some [], none) ∧
      (computeLanguageConfidenceValues sampleStore.engine
          [sampleHandle, .prim (.string "12")]).result = .ok (.array []) ∧
      (computeLanguageConfidenceValues sampleStore.engine
          [sampleHandle, .prim (.string "")]).result = .ok (.array []) := by
  refine ⟨rfl, by decide!, by decide!, by decide⟩

/-- C9, amended: on a live detector handle and a text, the list returned by
`computeLanguageConfidenceValues` holds the engine's values in the engine's
order, sorted by confidence descending with ties broken by language code
ascending; when the engine returns values (the text is not empty and has
signal) there is one entry per language of the candidate set, and when it
returns none the list is empty. -/
theorem computeLanguageConfidenceValues_ranked (st : LanguageModelStore) (handle : Value)
    (d : LinguaDetector) (text : String) (rest : List Value)
    (hh : handle.getNativeState = some ⟨some d⟩) :
    ∃ values : List ConfidenceValue,
      (computeLanguageConfidenceValues st.engine
          (handle :: .prim (.string text) :: rest)).result =
        .ok (.array (values.map confidenceObj)) ∧
      values = (st.engine.lingua_compute_language_confidence_values d (c_str text)).1.getD [] ∧
      values.Sorted rankedBefore ∧
      (c_str text ≠ "" → st.total d (c_str text) ≠ 0 →
        (values.map (fun v => v.language_code)).Perm d.candidates) ∧
      ((c_str text = "" ∨ st.total d (c_str text) = 0) → values = []) := by
  refine ⟨(st.computeConfidenceValues d (c_str text)).1.getD [], ?_, rfl,
    computeConfidenceValues_ranked st d (c_str text),
    computeConfidenceValues_codes st d (c_str text),
    computeConfidenceValues_none st d (c_str text)⟩
  rw [computeLanguageConfidenceValues_live st.engine handle d text rest hh]
  show (match (st.computeConfidenceValues d (c_str text)).1 with
    | none => _
    | some values => _ : Outcome).result = _
  cases (st.computeConfidenceValues d (c_str text)).1 with
  | none => rfl
  | some values =>
    cases values with
    | nil => rfl
    | cons v vs => rfl

/-- Witness for the amended C9: a text with Latin and Cyrillic letters on the
sample engine; the text is not empty and has signal, so the two candidate
languages each have their entry. -/
theorem computeLanguageConfidenceValues_ranked_witness :
    sampleHandle.getNativeState = some ⟨some sampleDetector⟩ ∧
      c_str "hi привет" ≠ "" ∧
      sampleStore.total sampleDetector (c_str "hi привет") ≠ 0 ∧
      ∃ values : List ConfidenceValue,
        (computeLanguageConfidenceValues sampleStore.engine
            [sampleHandle, .prim (.string "hi привет")]).result =
          .ok (.array (values.map confidenceObj)) ∧
        values = [⟨"ru", 3 / 4⟩, ⟨"en", 1 / 4⟩] ∧
        values.Sorted rankedBefore ∧
        (values.map (fun v => v.language_code)).Perm sampleDetector.candidates := by
  have h1 : c_str "hi привет" ≠ "" := by decide
  have h2 : sampleStore.total sampleDetector (c_str "hi привет") ≠ 0 := by decide!
  have hv : (sampleStore.engine.lingua_compute_language_confidence_values sampleDetector
      (c_str "hi привет")).1.getD [] = [⟨"ru", 3 / 4⟩, ⟨"en", 1 / 4⟩] := by decide!
  obtain ⟨values, hres, hval, hsorted, hperm, _⟩ :=
    computeLanguageConfidenceValues_ranked sampleStore sampleHandle sampleDetector
      "hi привет" [] rfl
  exact ⟨rfl, h1, h2, values, hres, hval.trans hv, hsorted, hperm h1 h2⟩

end lingua
